import Mathlib

/-!
Verification of the Azure AD authentication-flow engine of the Reflexions
repository (src/reflexions/auth/azure_auth/).  The configuration resolver
(config.py) and the auth session state machine (core.py) are embedded
shallowly: the per-session mutable record becomes an explicit state value
threaded through the flow operations, raised exceptions become Except, and
the external MSAL client is represented by an oracle argument covering the
provider-side outcomes, with its locally-detectable checks (state mismatch,
missing authorization code) modelled explicitly.
-/

namespace Reflexions

/-- Whitespace characters removed by the Python str.strip method. -/
def isPySpace (c : Char) : Bool :=
  c = ' ' || c = '\t' || c = '\n' || c = '\r' || c = '\x0b' || c = '\x0c'

/-- The Python str.strip method: drops leading and trailing whitespace. -/
def py_strip (s : String) : String :=
  String.mk (((s.data.dropWhile isPySpace).reverse.dropWhile isPySpace).reverse)

/-- Splitting a character list at every occurrence of a separator; the
empty list yields one empty piece, matching the Python str.split method on
a one-character separator. -/
def pySplitList (sep : Char) : List Char → List (List Char)
  | [] => [[]]
  | c :: cs =>
      match pySplitList sep cs with
      | [] => [[]]
      | h :: t => if c = sep then [] :: h :: t else (c :: h) :: t

/-- The Python str.split method with a one-character separator. -/
def py_split (s : String) (sep : Char) : List String :=
  (pySplitList sep s.data).map String.mk

/-- Translated from config.py, function parse_scopes: splits a
comma-separated string, strips each piece, and keeps the non-empty pieces;
a missing or empty input yields the empty list. -/
def parse_scopes (scopes_str : Option String) : List String :=
  match scopes_str with
  | none => []
  | some str =>
      if str = "" then []
      else ((py_split str ',').filter (fun sc => !(py_strip sc).isEmpty)).map
        py_strip

/-- Translated from config.py, dataclass AzureAuthConfig (environment
loading is outside the embedding: a value of this type is the resolved
configuration). -/
structure AzureAuthConfig where
  client_id : String
  client_secret : String
  tenant_id : String
  scopes : List String
  login_redirect_url : String
  post_logout_redirect_uri : Option String
  logout_route : String
  callback_route : String
deriving Repr, DecidableEq

/-- Translated from config.py, property AzureAuthConfig.authority: raises
ValueError when the tenant id is empty, otherwise formats the login URL. -/
def AzureAuthConfig.authority (c : AzureAuthConfig) : Except String String :=
  if c.tenant_id = "" then
    .error ("Azure AD Tenant ID is not configured. Set the AZURE_TENANT_ID "
      ++ "environment variable or call configure_azure_auth().")
  else
    .ok ("https://login.microsoftonline.com/" ++ c.tenant_id)

/-- Translated from config.py, method AzureAuthConfig.is_configured:
truthiness of the three required strings. -/
def AzureAuthConfig.is_configured (c : AzureAuthConfig) : Bool :=
  !c.client_id.isEmpty && !c.client_secret.isEmpty && !c.tenant_id.isEmpty

/-- The RuntimeError message raised by config.py, function get_config. -/
def get_config_error_message : String :=
  "Azure AD authentication essentials (Client ID, Client Secret, Tenant ID) "
    ++ "are not configured. Set environment variables (AZURE_CLIENT_ID, "
    ++ "AZURE_CLIENT_SECRET, AZURE_TENANT_ID) or call "
    ++ "reflexions.azure_auth.configure_azure_auth() before use."

/-- Translated from config.py, function get_config: returns the module
configuration, raising RuntimeError when it is not fully configured. -/
def get_config (c : AzureAuthConfig) : Except String AzureAuthConfig :=
  if c.is_configured then .ok c else .error get_config_error_message

/-- The MSAL flow dictionary stored by core.py in SsoState._flow while an
authorization-code flow is pending: its CSRF state token and the
authorization URL the browser is sent to.  An absent pending flow (the
empty Python dict) is modelled as none at the use sites. -/
structure PendingFlow where
  state : String
  auth_uri : String
deriving Repr, DecidableEq

/-- Translated from core.py, class SsoState: the per-session mutable
record (token claims dictionary, access token, pending MSAL flow).  Claim
values are kept opaque as strings; only presence and equality of the
mapping matter to the flow logic. -/
structure SsoState where
  token_claims : List (String × String)
  access_token : String
  flow : Option PendingFlow
deriving Repr, DecidableEq

/-- Translated from core.py, var SsoState.is_authenticated: truthiness of
the token-claims dictionary. -/
def SsoState.is_authenticated (s : SsoState) : Bool :=
  !s.token_claims.isEmpty

/-- Dictionary-style lookup in the query-parameter mapping (Python
dict.get on router.page.params); the first binding of a key wins. -/
def getParam (ps : List (String × String)) (k : String) : Option String :=
  (ps.find? (fun p => p.1 == k)).map Prod.snd

/-- The three-way outcome of a flow operation: a redirect EventSpec, a
toast EventSpec (message, status, duration), or a re-raised RuntimeError. -/
inductive FlowResult
  | redirect (url : String)
  | toast (message : String) (status : String) (duration : Nat)
  | raised (message : String)
deriving Repr, DecidableEq

/-- The router.page fields read by core.py: request_url (none models the
AttributeError fallback branch), path, scheme and host. -/
structure RouterPage where
  request_url : Option String
  path : String
  scheme : String
  host : String
deriving Repr, DecidableEq

/-- Translated from core.py, method SsoState.redirect_to_sso, base-URL
derivation: strip the page path from the request URL and drop a trailing
slash, falling back to scheme://host when request_url is unavailable. -/
def derive_base_url (r : RouterPage) : String :=
  match r.request_url with
  | some u =>
      let b := u.replace r.path ""
      if b.endsWith "/" then b.dropRight 1 else b
  | none => r.scheme ++ "://" ++ r.host

/-- Translated from core.py, method SsoState.redirect_to_sso: after
get_config succeeds, derives the callback URI, asks the MSAL client
(abstracted as the initiate oracle, which per the provider contract
always returns a flow carrying a state token and an auth URI) for flow
details, stores them in the session and redirects to the auth URI. -/
def SsoState.redirect_to_sso (c : AzureAuthConfig)
    (initiate : List String → String → PendingFlow) (router : RouterPage)
    (s : SsoState) : Except String (SsoState × FlowResult) :=
  match get_config c with
  | .error m => .error m
  | .ok cfg =>
      let callback_uri := derive_base_url router ++ cfg.callback_route
      let flow_details := initiate cfg.scopes callback_uri
      .ok ({ s with flow := some flow_details },
        .redirect flow_details.auth_uri)

/-- Translated from core.py, method SsoState.require_auth: no-op for an
authenticated session, otherwise initiate the authorization-code flow. -/
def SsoState.require_auth (c : AzureAuthConfig)
    (initiate : List String → String → PendingFlow) (router : RouterPage)
    (s : SsoState) : Except String (SsoState × Option FlowResult) :=
  if s.is_authenticated then .ok (s, none)
  else
    match s.redirect_to_sso c initiate router with
    | .error m => .error m
    | .ok (s2, e) => .ok (s2, some e)

/-- The token dictionary returned by the MSAL exchange, with the four keys
core.py reads; none models an absent key. -/
structure TokenResult where
  error : Option String
  error_description : Option String
  access_token : Option String
  id_token_claims : Option (List (String × String))
deriving Repr, DecidableEq

/-- Outcome of the MSAL acquire-token call: a returned result dictionary
(possibly carrying an error payload), a raised ValueError, or another
raised exception. -/
inductive MsalOutcome
  | result (r : TokenResult)
  | valueError (message : String)
  | otherError (message : String)
deriving Repr, DecidableEq

/-- The authorization response core.py assembles from the callback query
parameters. -/
structure AuthResponse where
  code : Option String
  client_info : Option String
  state : Option String
  session_state : Option String
deriving Repr, DecidableEq

/-- Builds the auth_response dictionary of core.py, handle_callback. -/
def mkAuthResponse (params : List (String × String)) : AuthResponse :=
  { code := getParam params "code"
    client_info := getParam params "client_info"
    state := getParam params "state"
    session_state := getParam params "session_state" }

/-- Modelled from the spec: the exchange step of the external MSAL client
(acquire_token_by_auth_code_flow) is third-party code, not part of this
repository.  Per the Identity Provider Client contract, a state value in
the authorization response that differs from the state recorded in the
stored PendingFlow is a locally detectable ValueError raised before any
network round trip (an absent flow, the empty dict, records no state), as
is an authorization response carrying no usable code; every remaining
outcome (token payload, provider-rejected payload, transport failure) is
supplied by the provider oracle. -/
def acquire_token_by_auth_code_flow (flow : Option PendingFlow)
    (resp : AuthResponse) (provider : MsalOutcome) : MsalOutcome :=
  if resp.state ≠ flow.map PendingFlow.state then
    .valueError "state mismatch"
  else if resp.code.getD "" = "" then
    .valueError "auth_response must contain either code or error"
  else provider

/-- Output of handle_callback: the resulting session, the returned event,
and a ghost flag recording whether the token exchange was invoked. -/
structure CallbackOutput where
  session : SsoState
  result : FlowResult
  exchangeInvoked : Bool
deriving Repr, DecidableEq

/-- Translated from core.py, method SsoState.handle_callback: on a
provider-reported error in the query parameters returns a failure toast
without touching the session; otherwise exchanges the authorization
response, turning a ValueError into a failure toast, re-raising any other
exception, turning an error payload into a failure toast, and on success
storing the access token and claims, clearing the flow and redirecting to
the configured login-redirect URL. -/
def SsoState.handle_callback (c : AzureAuthConfig)
    (params : List (String × String)) (provider : MsalOutcome)
    (s : SsoState) : Except String CallbackOutput :=
  match get_config c with
  | .error m => .error m
  | .ok cfg =>
      match getParam params "error" with
      | some _ =>
          let error_description :=
            (getParam params "error_description").getD "Unknown error."
          .ok ⟨s, .toast ("Login failed: " ++ error_description) "error" 5000,
            false⟩
      | none =>
          match acquire_token_by_auth_code_flow s.flow (mkAuthResponse params)
              provider with
          | .valueError _ =>
              .ok ⟨s, .toast "Login callback error. Please try logging in again."
                "error" 5000, true⟩
          | .otherError m =>
              .ok ⟨s, .raised ("Unexpected error during token acquisition: " ++ m),
                true⟩
          | .result r =>
              match r.error with
              | some _ =>
                  let d := r.error_description.getD "Token acquisition failed."
                  .ok ⟨s, .toast ("Login failed: " ++ d) "error" 5000, true⟩
              | none =>
                  .ok ⟨{ token_claims := r.id_token_claims.getD []
                         access_token := r.access_token.getD ""
                         flow := none },
                    .redirect cfg.login_redirect_url, true⟩

/-- One observable side-effect step of perform_logout, with the session
value at the moment the step executes; used to express that the session is
cleared before revocation is attempted. -/
inductive LogoutStep
  | clearSession
  | revokeAccount (account : String) (sessionAtCall : SsoState)
deriving Repr, DecidableEq

/-- Output of perform_logout: the resulting session, the ordered
side-effect steps, the token cache after the best-effort revocation, and
the returned redirect. -/
structure LogoutOutput where
  session : SsoState
  steps : List LogoutStep
  cache : List String
  result : FlowResult
deriving Repr, DecidableEq

/-- Translated from core.py, method SsoState.perform_logout: clears the
local session state first, then best-effort removes the first cached
account when one exists (a failing removal, modelled by revokeFails, is
suppressed), and redirects to the authority logout endpoint, appending the
post-logout redirect URI only when one is configured and non-empty. -/
def SsoState.perform_logout (c : AzureAuthConfig) (accounts : List String)
    (revokeFails : Bool) (_s : SsoState) : Except String LogoutOutput :=
  match get_config c with
  | .error m => .error m
  | .ok cfg =>
      let s1 : SsoState := { token_claims := [], access_token := "", flow := none }
      let steps0 : List LogoutStep := [LogoutStep.clearSession]
      let stepsAndCache :=
        match accounts with
        | [] => (steps0, accounts)
        | a :: rest =>
            (steps0 ++ [LogoutStep.revokeAccount a s1],
              if revokeFails then a :: rest else rest)
      match cfg.authority with
      | .error m => .error m
      | .ok auth =>
          let logout_url := auth ++ "/oauth2/v2.0/logout"
          let logout_url :=
            match cfg.post_logout_redirect_uri with
            | some p =>
                if p = "" then logout_url
                else logout_url ++ "?post_logout_redirect_uri=" ++ p
            | none => logout_url
          .ok ⟨s1, stepsAndCache.1, stepsAndCache.2, .redirect logout_url⟩

/-- Membership in the parsed scope list: exactly the non-empty strips of
the comma-separated pieces. -/
lemma parse_scopes_mem (str x : String) :
    x ∈ parse_scopes (some str) ↔
      x ≠ "" ∧ ∃ piece ∈ py_split str ',', py_strip piece = x := by
  have hdef : parse_scopes (some str) =
      if str = "" then []
      else ((py_split str ',').filter (fun sc => !(py_strip sc).isEmpty)).map
        py_strip := rfl
  rw [hdef]
  by_cases hs : str = ""
  · subst hs
    rw [if_pos rfl]
    simp only [List.not_mem_nil, false_iff]
    rintro ⟨hx, piece, hp, ht⟩
    have hp0 : piece = "" := by
      have hsplit : py_split "" ',' = [""] := rfl
      rw [hsplit] at hp
      simpa using hp
    exact hx (by rw [← ht, hp0]; rfl)
  · rw [if_neg hs]
    constructor
    · rintro h
      obtain ⟨a, ha, rfl⟩ := List.mem_map.mp h
      obtain ⟨ha1, ha2⟩ := List.mem_filter.mp ha
      refine ⟨?_, a, ha1, rfl⟩
      intro hcon
      rw [hcon] at ha2
      exact absurd ha2 (by decide)
    · rintro ⟨hx, a, ha, rfl⟩
      refine List.mem_map.mpr ⟨a, List.mem_filter.mpr ⟨ha, ?_⟩, rfl⟩
      simp only [Bool.not_eq_true', Bool.eq_false_iff, ne_eq,
        String.isEmpty_iff]
      exact hx

/-- Claim C10: the scope parser splits on commas, strips each entry, and
drops empty entries, so the result never contains an empty string, and an
absent or empty input yields the empty list. -/
theorem claim_C10_parse_scopes :
    (parse_scopes none = [] ∧ parse_scopes (some "") = [])
    ∧ (∀ os : Option String, "" ∉ parse_scopes os)
    ∧ (∀ str x : String, x ∈ parse_scopes (some str) ↔
        x ≠ "" ∧ ∃ piece ∈ py_split str ',', py_strip piece = x) := by
  refine ⟨⟨rfl, rfl⟩, ?_, parse_scopes_mem⟩
  intro os h
  match os with
  | none => simp [parse_scopes] at h
  | some str =>
      obtain ⟨hx, -⟩ := (parse_scopes_mem str "").mp h
      exact hx rfl

/-- Witness for C10 at a concrete scope string. -/
theorem claim_C10_witness :
    parse_scopes none = [] ∧ "" ∉ parse_scopes (some " a, ,b ") :=
  ⟨claim_C10_parse_scopes.1.1, claim_C10_parse_scopes.2.1 (some " a, ,b ")⟩

/-- Claim C8: with a non-empty tenant id the authority is the formatted
login URL, with an empty tenant id it is a configuration error, and the
concrete tenant contoso yields the expected URL. -/
theorem claim_C8_authority :
    (∀ c : AzureAuthConfig,
      (c.tenant_id ≠ "" →
        c.authority = .ok ("https://login.microsoftonline.com/" ++ c.tenant_id))
      ∧ (c.tenant_id = "" → ∃ m, c.authority = .error m))
    ∧ AzureAuthConfig.authority
        ⟨"abc", "xyz", "contoso", [], "/", none, "/logout", "/callback"⟩
        = .ok "https://login.microsoftonline.com/contoso" := by
  refine ⟨fun c => ⟨fun h => ?_, fun h => ?_⟩, rfl⟩
  · simp [AzureAuthConfig.authority, h]
  · unfold AzureAuthConfig.authority
    rw [if_pos h]
    exact ⟨_, rfl⟩

/-- Witness for C8 at a concrete configured tenant. -/
theorem claim_C8_witness :
    (("tst" : String) ≠ "")
    ∧ AzureAuthConfig.authority
        ⟨"a", "b", "tst", [], "/", none, "/logout", "/callback"⟩
        = .ok "https://login.microsoftonline.com/tst" :=
  ⟨by decide,

    (claim_C8_authority.1
      ⟨"a", "b", "tst", [], "/", none, "/logout", "/callback"⟩).1 (by decide)⟩

set_option maxRecDepth 8192 in
/-- Claim C9: is_configured is truth of all three required settings, and
get_config fails exactly when it is false, with a message naming the
missing settings (it names all three). -/
theorem claim_C9_config (c : AzureAuthConfig) :
    (c.is_configured = true ↔
      (c.client_id ≠ "" ∧ c.client_secret ≠ "" ∧ c.tenant_id ≠ ""))
    ∧ ((∃ m, get_config c = .error m) ↔ c.is_configured = false)
    ∧ (c.is_configured = false →
        ∃ m, get_config c = .error m
          ∧ (∃ p q, m = p ++ "Client ID" ++ q)
          ∧ (∃ p q, m = p ++ "Client Secret" ++ q)
          ∧ (∃ p q, m = p ++ "Tenant ID" ++ q))
    ∧ (c.is_configured = true → get_config c = .ok c) := by
  refine ⟨?_, ?_, ?_, ?_⟩
  · simp only [AzureAuthConfig.is_configured, Bool.and_eq_true,
      Bool.not_eq_true', Bool.eq_false_iff, ne_eq, String.isEmpty_iff,
      and_assoc]
  · cases h : c.is_configured with
    | true => simp [get_config, h]
    | false => simp [get_config, h]
  · intro h
    refine ⟨get_config_error_message, by simp [get_config, h], ?_, ?_, ?_⟩
    · exact ⟨"Azure AD authentication essentials (",
        ", Client Secret, Tenant ID) are not configured. Set environment "
          ++ "variables (AZURE_CLIENT_ID, AZURE_CLIENT_SECRET, "
          ++ "AZURE_TENANT_ID) or call "
          ++ "reflexions.azure_auth.configure_azure_auth() before use.",
        rfl⟩
    · exact ⟨"Azure AD authentication essentials (Client ID, ",
        ", Tenant ID) are not configured. Set environment variables "
          ++ "(AZURE_CLIENT_ID, AZURE_CLIENT_SECRET, AZURE_TENANT_ID) or "
          ++ "call reflexions.azure_auth.configure_azure_auth() before use.",
        rfl⟩
    · exact ⟨"Azure AD authentication essentials (Client ID, Client Secret, ",
        ") are not configured. Set environment variables (AZURE_CLIENT_ID, "
          ++ "AZURE_CLIENT_SECRET, AZURE_TENANT_ID) or call "
          ++ "reflexions.azure_auth.configure_azure_auth() before use.",
        rfl⟩
  · intro h
    simp [get_config, h]

/-- Witness for C9 at a configuration missing its client id. -/
theorem claim_C9_witness :
    AzureAuthConfig.is_configured
        ⟨"", "s", "t", [], "/", none, "/logout", "/callback"⟩ = false
    ∧ ∃ m, get_config ⟨"", "s", "t", [], "/", none, "/logout", "/callback"⟩
        = .error m
        ∧ (∃ p q, m = p ++ "Client ID" ++ q)
        ∧ (∃ p q, m = p ++ "Client Secret" ++ q)
        ∧ (∃ p q, m = p ++ "Tenant ID" ++ q) :=
  ⟨by decide,
    (claim_C9_config ⟨"", "s", "t", [], "/", none, "/logout", "/callback"⟩).2.2.1
      (by decide)⟩

/-- A configured module configuration passes the get_config gate. -/
lemma get_config_ok {c : AzureAuthConfig} (h : c.is_configured = true) :
    get_config c = .ok c := by
  simp [get_config, h]

/-- A configured module configuration has a non-empty tenant id. -/
lemma is_configured_tenant {c : AzureAuthConfig}
    (h : c.is_configured = true) : c.tenant_id ≠ "" := by
  simp only [AzureAuthConfig.is_configured, Bool.and_eq_true,
    Bool.not_eq_true'] at h
  intro hcon
  rw [hcon] at h
  exact absurd h.2 (by decide)

/-- The assembled authorization response reads its state from the query
parameters. -/
lemma mkAuthResponse_state (params : List (String × String)) :
    (mkAuthResponse params).state = getParam params "state" := rfl

/-- Claim C7: require_auth on an authenticated session returns no redirect
and leaves every session field unchanged. -/
theorem claim_C7_require_auth_authenticated (c : AzureAuthConfig)
    (initiate : List String → String → PendingFlow) (router : RouterPage)
    (s : SsoState) (h : s.is_authenticated = true) :
    SsoState.require_auth c initiate router s = .ok (s, none) := by
  simp [SsoState.require_auth, h]

/-- Witness for C7 on a concrete authenticated session. -/
theorem claim_C7_witness :
    SsoState.is_authenticated ⟨[("name", "x")], "tok", none⟩ = true
    ∧ SsoState.require_auth
        ⟨"a", "b", "t", [], "/", none, "/logout", "/callback"⟩
        (fun _ u => ⟨"st", u⟩) ⟨none, "/", "http", "h"⟩
        ⟨[("name", "x")], "tok", none⟩
        = .ok (⟨[("name", "x")], "tok", none⟩, none) :=
  ⟨by decide,
    claim_C7_require_auth_authenticated
      ⟨"a", "b", "t", [], "/", none, "/logout", "/callback"⟩
      (fun _ u => ⟨"st", u⟩) ⟨none, "/", "http", "h"⟩
      ⟨[("name", "x")], "tok", none⟩ (by decide)⟩

/-- Claim C6: require_auth on a non-authenticated session stores the flow
produced by the provider client for the configured scopes and the derived
callback URI (overwriting any prior pending flow), leaves claims and the
access token unchanged, returns a redirect to that flow's authorization
URL, and the session is flow-pending (still not authenticated) after. -/
theorem claim_C6_require_auth_unauthenticated (c : AzureAuthConfig)
    (initiate : List String → String → PendingFlow) (router : RouterPage)
    (s : SsoState) (hc : c.is_configured = true)
    (h : s.is_authenticated = false) :
    SsoState.require_auth c initiate router s
      = .ok ({ s with
          flow := some (initiate c.scopes
            (derive_base_url router ++ c.callback_route)) },
        some (.redirect (initiate c.scopes
          (derive_base_url router ++ c.callback_route)).auth_uri))
    ∧ SsoState.is_authenticated
        { s with flow := some (initiate c.scopes
            (derive_base_url router ++ c.callback_route)) } = false := by
  constructor
  · simp [SsoState.require_auth, SsoState.redirect_to_sso, h,
      get_config_ok hc]
  · exact h

/-- Witness for C6 on a concrete unauthenticated session with a stale
pending flow. -/
theorem claim_C6_witness :
    AzureAuthConfig.is_configured
        ⟨"a", "b", "t", ["User.Read"], "/", none, "/logout", "/callback"⟩ = true
    ∧ SsoState.is_authenticated ⟨[], "", some ⟨"old", "oldu"⟩⟩ = false
    ∧ SsoState.require_auth
        ⟨"a", "b", "t", ["User.Read"], "/", none, "/logout", "/callback"⟩
        (fun _ u => ⟨"stt", "https://login.example/?redirect=" ++ u⟩)
        ⟨none, "/page", "http", "localhost:3000"⟩
        ⟨[], "", some ⟨"old", "oldu"⟩⟩
      = .ok (⟨[], "",
          some ((fun (_ : List String) (u : String) =>
              PendingFlow.mk "stt" ("https://login.example/?redirect=" ++ u))
            ["User.Read"]
            (derive_base_url ⟨none, "/page", "http", "localhost:3000"⟩
              ++ "/callback"))⟩,
        some (.redirect ((fun (_ : List String) (u : String) =>
              PendingFlow.mk "stt" ("https://login.example/?redirect=" ++ u))
            ["User.Read"]
            (derive_base_url ⟨none, "/page", "http", "localhost:3000"⟩
              ++ "/callback")).auth_uri)) :=
  ⟨by decide, by decide,
    (claim_C6_require_auth_unauthenticated
      ⟨"a", "b", "t", ["User.Read"], "/", none, "/logout", "/callback"⟩
      (fun _ u => ⟨"stt", "https://login.example/?redirect=" ++ u⟩)
      ⟨none, "/page", "http", "localhost:3000"⟩
      ⟨[], "", some ⟨"old", "oldu"⟩⟩ (by decide) (by decide)).1⟩

/-- Claim C1: for every session, and in particular after each of the three
flow operations, the is_authenticated projection holds exactly when the
token-claims mapping is non-empty. -/
theorem claim_C1_is_authenticated_iff :
    (∀ s : SsoState, s.is_authenticated = true ↔ s.token_claims ≠ [])
    ∧ (∀ c initiate router s s2 r,
        SsoState.require_auth c initiate router s = .ok (s2, r) →
          (SsoState.is_authenticated s2 = true ↔ s2.token_claims ≠ []))
    ∧ (∀ c params provider s out,
        SsoState.handle_callback c params provider s = .ok out →
          (out.session.is_authenticated = true ↔ out.session.token_claims ≠ []))
    ∧ (∀ c accounts rf s out,
        SsoState.perform_logout c accounts rf s = .ok out →
          (out.session.is_authenticated = true ↔
            out.session.token_claims ≠ [])) := by
  have base : ∀ s : SsoState, s.is_authenticated = true ↔ s.token_claims ≠ [] := by
    intro s
    simp [SsoState.is_authenticated]
  exact ⟨base, fun _ _ _ _ s2 _ _ => base s2,
    fun _ _ _ _ out _ => base out.session,
    fun _ _ _ _ out _ => base out.session⟩

/-- Witness for C1 after a concrete require_auth run. -/
theorem claim_C1_witness :
    SsoState.require_auth ⟨"a", "b", "t", [], "/", none, "/logout", "/callback"⟩
        (fun _ u => ⟨"st", u⟩) ⟨none, "/", "http", "h"⟩
        ⟨[("name", "x")], "tok", none⟩
      = .ok (⟨[("name", "x")], "tok", none⟩, none)
    ∧ (SsoState.is_authenticated ⟨[("name", "x")], "tok", none⟩ = true ↔
        (⟨[("name", "x")], "tok", none⟩ : SsoState).token_claims ≠ []) :=
  ⟨rfl,
    claim_C1_is_authenticated_iff.2.1
      ⟨"a", "b", "t", [], "/", none, "/logout", "/callback"⟩
      (fun _ u => ⟨"st", u⟩) ⟨none, "/", "http", "h"⟩
      ⟨[("name", "x")], "tok", none⟩ ⟨[("name", "x")], "tok", none⟩ none rfl⟩

/-- Claim C5: a callback whose query parameters carry a provider error
returns a failure toast carrying the provider error description, mutates
no session state, and never invokes the token exchange (the output is the
same for every provider outcome and the exchange flag stays false). -/
theorem claim_C5_callback_provider_error (c : AzureAuthConfig)
    (params : List (String × String)) (s : SsoState) (err : String)
    (hc : c.is_configured = true) (he : getParam params "error" = some err) :
    (∀ provider : MsalOutcome,
      SsoState.handle_callback c params provider s
        = .ok ⟨s, .toast ("Login failed: "
            ++ ((getParam params "error_description").getD "Unknown error."))
            "error" 5000, false⟩)
    ∧ (∀ d, getParam params "error_description" = some d →
        ∃ p q, ("Login failed: "
            ++ ((getParam params "error_description").getD "Unknown error."))
          = p ++ d ++ q) := by
  constructor
  · intro provider
    simp [SsoState.handle_callback, get_config_ok hc, he]
  · intro d hd
    refine ⟨"Login failed: ", "", ?_⟩
    simp [hd]

/-- Witness for C5 on a concrete denied-consent callback. -/
theorem claim_C5_witness :
    SsoState.handle_callback
        ⟨"a", "b", "t", [], "/", none, "/logout", "/callback"⟩
        [("error", "access_denied"), ("error_description", "User cancelled")]
        (.result ⟨none, none, some "tok", some [("name", "x")]⟩)
        ⟨[], "", some ⟨"st", "uri"⟩⟩
      = .ok ⟨⟨[], "", some ⟨"st", "uri"⟩⟩,
          .toast ("Login failed: "
            ++ ((getParam [("error", "access_denied"),
                ("error_description", "User cancelled")]
              "error_description").getD "Unknown error.")) "error" 5000,
          false⟩ :=
  (claim_C5_callback_provider_error
    ⟨"a", "b", "t", [], "/", none, "/logout", "/callback"⟩
    [("error", "access_denied"), ("error_description", "User cancelled")]
    ⟨[], "", some ⟨"st", "uri"⟩⟩ "access_denied" (by decide) (by decide)).1
    (.result ⟨none, none, some "tok", some [("name", "x")]⟩)

/-- Claim C2 as amended: a state mismatch is always detected as a
ValueError regardless of the other parameters, and on any exchange failure
(raised ValueError or provider-rejected result payload) handle_callback
returns a failure toast and performs no session mutation at all; in
particular the consumed pending flow is retained, not cleared, so a
flow-pending session stays flow-pending rather than returning to the
unauthenticated state, while is_authenticated is unchanged. -/
theorem claim_C2_exchange_failure (c : AzureAuthConfig)
    (params : List (String × String)) (provider : MsalOutcome) (s : SsoState)
    (hc : c.is_configured = true) (he : getParam params "error" = none) :
    (getParam params "state" ≠ s.flow.map PendingFlow.state →
      acquire_token_by_auth_code_flow s.flow (mkAuthResponse params) provider
        = .valueError "state mismatch")
    ∧ ((∃ m, acquire_token_by_auth_code_flow s.flow (mkAuthResponse params)
          provider = .valueError m)
        ∨ (∃ r e, acquire_token_by_auth_code_flow s.flow (mkAuthResponse params)
            provider = .result r ∧ r.error = some e) →
        ∃ msg, SsoState.handle_callback c params provider s
          = .ok ⟨s, .toast msg "error" 5000, true⟩) := by
  constructor
  · intro h
    simp [acquire_token_by_auth_code_flow, mkAuthResponse_state, h]
  · rintro (⟨m, hm⟩ | ⟨r, e, hr, herr⟩)
    · exact ⟨"Login callback error. Please try logging in again.",
        by simp [SsoState.handle_callback, get_config_ok hc, he, hm]⟩
    · exact ⟨"Login failed: "
          ++ r.error_description.getD "Token acquisition failed.",
        by simp [SsoState.handle_callback, get_config_ok hc, he, hr, herr]⟩

/-- Counterexample to C2 as stated: on a concrete flow-pending session
whose callback carries a mismatching state, the exchange fails with a
ValueError and handle_callback returns the failure toast, yet the session
is returned entirely unchanged: the consumed pending flow is NOT cleared
(it is still the stored flow, not none), so the session has not returned
to the unauthenticated state the claim requires. -/
theorem claim_C2_counterexample :
    SsoState.handle_callback
        ⟨"a", "b", "t", [], "/", none, "/logout", "/callback"⟩
        [("code", "c1"), ("state", "bad")]
        (.result ⟨none, none, some "tok", some [("name", "x")]⟩)
        ⟨[], "", some ⟨"good", "https://auth.example/a"⟩⟩
      = .ok ⟨⟨[], "", some ⟨"good", "https://auth.example/a"⟩⟩,
          .toast "Login callback error. Please try logging in again."
            "error" 5000, true⟩
    ∧ (some (PendingFlow.mk "good" "https://auth.example/a")
        : Option PendingFlow) ≠ none :=
  ⟨rfl, by decide⟩

/-- Witness for C2 (amended) at the same concrete mismatching callback. -/
theorem claim_C2_witness :
    acquire_token_by_auth_code_flow (some ⟨"good", "https://auth.example/a"⟩)
        (mkAuthResponse [("code", "c1"), ("state", "bad")])
        (.result ⟨none, none, some "tok", some [("name", "x")]⟩)
      = .valueError "state mismatch"
    ∧ ∃ msg, SsoState.handle_callback
        ⟨"a", "b", "t", [], "/", none, "/logout", "/callback"⟩
        [("code", "c1"), ("state", "bad")]
        (.result ⟨none, none, some "tok", some [("name", "x")]⟩)
        ⟨[], "", some ⟨"good", "https://auth.example/a"⟩⟩
      = .ok ⟨⟨[], "", some ⟨"good", "https://auth.example/a"⟩⟩,
          .toast msg "error" 5000, true⟩ :=
  ⟨(claim_C2_exchange_failure
      ⟨"a", "b", "t", [], "/", none, "/logout", "/callback"⟩
      [("code", "c1"), ("state", "bad")]
      (.result ⟨none, none, some "tok", some [("name", "x")]⟩)
      ⟨[], "", some ⟨"good", "https://auth.example/a"⟩⟩
      (by decide) (by decide)).1 (by decide),
    (claim_C2_exchange_failure
      ⟨"a", "b", "t", [], "/", none, "/logout", "/callback"⟩
      [("code", "c1"), ("state", "bad")]
      (.result ⟨none, none, some "tok", some [("name", "x")]⟩)
      ⟨[], "", some ⟨"good", "https://auth.example/a"⟩⟩
      (by decide) (by decide)).2
      (Or.inl ⟨"state mismatch", by decide⟩)⟩

/-- Claim C4: on a successful token exchange the returned access token and
claims are stored, the pending flow is cleared, the session is
authenticated (the success payload carries a non-empty claims mapping per
the provider contract), a redirect to the configured login-success path is
returned, and replaying the same callback against the resulting session
fails with a toast instead of re-authenticating, since the cleared flow no
longer matches the replayed state. -/
theorem claim_C4_callback_success (c : AzureAuthConfig)
    (params : List (String × String)) (r : TokenResult) (s : SsoState)
    (fl : PendingFlow) (claims : List (String × String)) (code : String)
    (hc : c.is_configured = true)
    (he : getParam params "error" = none)
    (hflow : s.flow = some fl)
    (hst : getParam params "state" = some fl.state)
    (hcode : getParam params "code" = some code) (hcode2 : code ≠ "")
    (herr : r.error = none)
    (hclaims : r.id_token_claims = some claims) (hne : claims ≠ []) :
    SsoState.handle_callback c params (.result r) s
      = .ok ⟨⟨claims, r.access_token.getD "", none⟩,
          .redirect c.login_redirect_url, true⟩
    ∧ SsoState.is_authenticated ⟨claims, r.access_token.getD "", none⟩ = true
    ∧ (∀ provider2 : MsalOutcome,
        SsoState.handle_callback c params provider2
            ⟨claims, r.access_token.getD "", none⟩
          = .ok ⟨⟨claims, r.access_token.getD "", none⟩,
              .toast "Login callback error. Please try logging in again."
                "error" 5000, true⟩) := by
  refine ⟨?_, ?_, ?_⟩
  · simp [SsoState.handle_callback, get_config_ok hc, he,
      acquire_token_by_auth_code_flow, mkAuthResponse, hflow, hst, hcode,
      hcode2, herr, hclaims]
  · simp [SsoState.is_authenticated, hne]
  · intro provider2
    simp [SsoState.handle_callback, get_config_ok hc, he,
      acquire_token_by_auth_code_flow, mkAuthResponse, hst]

/-- Witness for C4 on a concrete successful callback and its replay. -/
theorem claim_C4_witness :
    SsoState.handle_callback
        ⟨"a", "b", "t", [], "/home", none, "/logout", "/callback"⟩
        [("code", "c1"), ("state", "st1")]
        (.result ⟨none, none, some "tok", some [("name", "u")]⟩)
        ⟨[], "", some ⟨"st1", "uri"⟩⟩
      = .ok ⟨⟨[("name", "u")],
            (some "tok").getD "", none⟩, .redirect "/home", true⟩
    ∧ SsoState.is_authenticated
        ⟨[("name", "u")], (some "tok").getD "", none⟩ = true
    ∧ SsoState.handle_callback
        ⟨"a", "b", "t", [], "/home", none, "/logout", "/callback"⟩
        [("code", "c1"), ("state", "st1")]
        (.result ⟨none, none, some "tok", some [("name", "u")]⟩)
        ⟨[("name", "u")], (some "tok").getD "", none⟩
      = .ok ⟨⟨[("name", "u")], (some "tok").getD "", none⟩,
          .toast "Login callback error. Please try logging in again."
            "error" 5000, true⟩ :=
  ⟨(claim_C4_callback_success
      ⟨"a", "b", "t", [], "/home", none, "/logout", "/callback"⟩
      [("code", "c1"), ("state", "st1")]
      ⟨none, none, some "tok", some [("name", "u")]⟩
      ⟨[], "", some ⟨"st1", "uri"⟩⟩ ⟨"st1", "uri"⟩ [("name", "u")] "c1"
      (by decide) (by decide) (by decide) (by decide) (by decide) (by decide)
      (by decide) (by decide) (by decide)).1,
    (claim_C4_callback_success
      ⟨"a", "b", "t", [], "/home", none, "/logout", "/callback"⟩
      [("code", "c1"), ("state", "st1")]
      ⟨none, none, some "tok", some [("name", "u")]⟩
      ⟨[], "", some ⟨"st1", "uri"⟩⟩ ⟨"st1", "uri"⟩ [("name", "u")] "c1"
      (by decide) (by decide) (by decide) (by decide) (by decide) (by decide)
      (by decide) (by decide) (by decide)).2.1,
    (claim_C4_callback_success
      ⟨"a", "b", "t", [], "/home", none, "/logout", "/callback"⟩
      [("code", "c1"), ("state", "st1")]
      ⟨none, none, some "tok", some [("name", "u")]⟩
      ⟨[], "", some ⟨"st1", "uri"⟩⟩ ⟨"st1", "uri"⟩ [("name", "u")] "c1"
      (by decide) (by decide) (by decide) (by decide) (by decide) (by decide)
      (by decide) (by decide) (by decide)).2.2
      (.result ⟨none, none, some "tok", some [("name", "u")]⟩)⟩

/-- Claim C3: perform_logout unconditionally clears claims, access token
and pending flow, also when the revocation call fails; the clearing step
precedes any revocation step, the session value at the moment revocation
runs is already cleared, and a revocation step occurs exactly when at
least one cached account exists. -/
theorem claim_C3_perform_logout (c : AzureAuthConfig)
    (accounts : List String) (rf : Bool) (s : SsoState)
    (hc : c.is_configured = true) :
    ∃ out : LogoutOutput,
      SsoState.perform_logout c accounts rf s = .ok out
      ∧ out.session = ⟨[], "", none⟩
      ∧ out.session.is_authenticated = false
      ∧ (accounts = [] → out.steps = [.clearSession])
      ∧ (∀ a rest, accounts = a :: rest →
          out.steps = [.clearSession, .revokeAccount a ⟨[], "", none⟩])
      ∧ ((∃ a snap, LogoutStep.revokeAccount a snap ∈ out.steps) ↔
          accounts ≠ [])
      ∧ (∀ a snap, LogoutStep.revokeAccount a snap ∈ out.steps →
          snap = out.session) := by
  have ht : c.tenant_id ≠ "" := is_configured_tenant hc
  simp only [SsoState.perform_logout, get_config_ok hc,
    AzureAuthConfig.authority, if_neg ht]
  cases accounts with
  | nil =>
      refine ⟨_, rfl, rfl, rfl, fun _ => rfl, fun a rest h => ?_, ?_, ?_⟩
      · exact absurd h (by simp)
      · simp
      · intro a snap hmem
        simp at hmem
  | cons a rest =>
      refine ⟨_, rfl, rfl, rfl, fun h => ?_, fun a2 rest2 h => ?_, ?_, ?_⟩
      · exact absurd h (by simp)
      · obtain ⟨rfl, rfl⟩ := by simpa using h
        rfl
      · simp
      · intro a2 snap hmem
        simp at hmem
        exact hmem.2

/-- Witness for C3 on a concrete session and a failing revocation. -/
theorem claim_C3_witness :
    ∃ out : LogoutOutput,
      SsoState.perform_logout
          ⟨"a", "b", "t", [], "/", none, "/logout", "/callback"⟩
          ["acct1"] true ⟨[("name", "x")], "tok", some ⟨"st", "uri"⟩⟩
        = .ok out
      ∧ out.session = ⟨[], "", none⟩
      ∧ out.session.is_authenticated = false
      ∧ (["acct1"] = ([] : List String) → out.steps = [.clearSession])
      ∧ (∀ a rest, ["acct1"] = a :: rest →
          out.steps = [.clearSession, .revokeAccount a ⟨[], "", none⟩])
      ∧ ((∃ a snap, LogoutStep.revokeAccount a snap ∈ out.steps) ↔
          ["acct1"] ≠ ([] : List String))
      ∧ (∀ a snap, LogoutStep.revokeAccount a snap ∈ out.steps →
          snap = out.session) :=
  claim_C3_perform_logout
    ⟨"a", "b", "t", [], "/", none, "/logout", "/callback"⟩
    ["acct1"] true ⟨[("name", "x")], "tok", some ⟨"st", "uri"⟩⟩ (by decide)

end Reflexions
